import Mathlib

set_option maxRecDepth 200000

/-
Shallow embedding of src/nkms/policy/models.py: the Contract / Policy /
PolicyGroup / TreasureMap / WorkOrder protocol layer of the nucypher nkms
repository.  Byte strings are modelled as lists of naturals.  External
collaborators that the file imports (the keccak digest, msgpack, the
BytestringSplitter, and the identity actors with their seal / encrypt_for /
verify_from operations) are not under src/ and are modelled from the spec,
each marked by a doc comment beginning with the words Modelled from the spec.
-/

/-- Byte strings, as in the Python code, are finite sequences of byte values. -/
abbrev Bytes := List Nat

/-- Modelled from the spec: the variable-length remainder of every wire message
uses a length-prefixed structured serialization format (msgpack, not under
src/).  Lengths are written as self-delimiting base-128 digit strings, low
digits first, continuation bit set on all but the last digit.  The fuel
argument makes the recursion structural; fuel equal to the encoded number is
always sufficient. -/
def vEncF : Nat → Nat → Bytes
  | 0, n => [n % 128]
  | f + 1, n => if n < 128 then [n] else (128 + n % 128) :: vEncF f (n / 128)

/-- Modelled from the spec: length encoding used by the serialization model. -/
def vEnc (n : Nat) : Bytes := vEncF n n

/-- Modelled from the spec: decoder for the length encoding, returning the
decoded number and the unconsumed rest of the input. -/
def vDec : Bytes → Option (Nat × Bytes)
  | [] => none
  | d :: rest =>
    if d < 128 then some (d, rest)
    else
      match vDec rest with
      | some (m, r) => some ((d - 128) + 128 * m, r)
      | none => none

/-- Modelled from the spec: serialization of a single byte string (length,
then content). -/
def mpDumpBytes (b : Bytes) : Bytes := vEnc b.length ++ b

/-- Modelled from the spec: deserialization of a single byte string, returning
the value and the unconsumed rest. -/
def mpLoadBytes (l : Bytes) : Option (Bytes × Bytes) :=
  match vDec l with
  | none => none
  | some (n, r) => if n ≤ r.length then some (r.take n, r.drop n) else none

/-- Modelled from the spec: msgpack loads of a single byte string, which must
consume the whole input. -/
def mpLoadBytesWhole (l : Bytes) : Option Bytes :=
  match mpLoadBytes l with
  | some (b, []) => some b
  | _ => none

/-- Modelled from the spec: deserialization of a known number of consecutive
byte strings. -/
def mpLoadN : Nat → Bytes → Option (List Bytes × Bytes)
  | 0, r => some ([], r)
  | k + 1, r =>
    match mpLoadBytes r with
    | none => none
    | some (b, r2) =>
      match mpLoadN k r2 with
      | none => none
      | some (bs, r3) => some (b :: bs, r3)

/-- Modelled from the spec: serialization of a list of byte strings (count,
then each element). -/
def mpDumpList (l : List Bytes) : Bytes :=
  vEnc l.length ++ (l.map mpDumpBytes).flatten

/-- Modelled from the spec: deserialization of a list of byte strings. -/
def mpLoadList (l : Bytes) : Option (List Bytes × Bytes) :=
  match vDec l with
  | none => none
  | some (n, r) => mpLoadN n r

/-- Modelled from the spec: msgpack loads of a list of byte strings, which
must consume the whole input. -/
def mpLoadListWhole (l : Bytes) : Option (List Bytes) :=
  match mpLoadList l with
  | some (bs, []) => some bs
  | _ => none

/-- Modelled from the spec: a Python 2-tuple of byte strings serializes as a
2-element array. -/
def mpDumpPair (a b : Bytes) : Bytes := mpDumpList [a, b]

/-- Modelled from the spec: msgpack loads of a 2-tuple of byte strings, which
must consume the whole input. -/
def mpLoadPairWhole (l : Bytes) : Option (Bytes × Bytes) :=
  match mpLoadListWhole l with
  | some [a, b] => some (a, b)
  | _ => none

/-- Modelled from the spec: the BytestringSplitter (nkms.crypto.utils, not
under src/) peels one fixed-width field off the front of a payload, failing
when the payload is shorter than the field width. -/
def splitFixed (n : Nat) (b : Bytes) : Option (Bytes × Bytes) :=
  if n ≤ b.length then some (b.take n, b.drop n) else none

/-- Modelled from the spec: keccak_digest of nkms.crypto.api (not under src/)
is an opaque deterministic digest of fixed length 32.  The stand-in below is
deterministic and 32 bytes long; collision resistance is delegated to the
primitive and is not used by any claim. -/
def keccak_digest (m : Bytes) : Bytes :=
  let h := m.foldl (fun a b => (a * 1099511628211 + b + 1) % (2 ^ 64)) 14695981039346656037
  (List.range 32).map (fun i => (h / 2 ^ (8 * (i % 8)) + i) % 256)

/-- Modelled from the spec: width in bytes of a Signature field. -/
def sigLen : Nat := 64

/-- Modelled from the spec: width in bytes of a PublicKey field. -/
def pkLen : Nat := 32

/-- Modelled from the spec: width in bytes of a serialized KFrag field. -/
def kfragLen : Nat := 66

/-- Pads or truncates a byte string to an exact width. -/
def padTo (n : Nat) (l : Bytes) : Bytes := (l ++ List.replicate n 0).take n

/-- Modelled from the spec: the signature an identity with verifying key pub
produces over a message.  The model makes verification sound and complete
(a signature verifies against pub over m exactly when it equals mkSig pub m);
unforgeability is not modelled and is not used by any claim. -/
def mkSig (pub m : Bytes) : Bytes := padTo sigLen (keccak_digest (pub ++ m))

/-- Modelled from the spec: Signature.verify(message, pubkey) of
nkms.crypto.signature (not under src/). -/
def sigVerify (s m pub : Bytes) : Bool := s == mkSig pub m

/-- An identity actor (Alice, Bob, Ursula) as seen by this layer: its public
verifying key bytes.  In the source, bytes(actor.seal) is this key and
actor.seal(m) signs m with the matching private key. -/
structure Character where
  pub : Bytes
deriving DecidableEq

/-- Modelled from the spec: the symmetric part of encrypt_for.  Confidentiality
is irrelevant to every claim, so encryption is a plain reversible byte map. -/
def encB (m : Bytes) : Bytes := m.map (fun x => x + 7)

/-- Modelled from the spec: decryption, the inverse of encB. -/
def decB (c : Bytes) : Bytes := c.map (fun x => x - 7)

/-- Modelled from the spec: actor.encrypt_for(recipient, m) returns a
ciphertext and a signature; with sign-on-cleartext the ciphertext carries the
signature of the sender over m followed by m. -/
def encryptFor (sender : Character) (_recipientPub m : Bytes) : Bytes × Bytes :=
  let s := mkSig sender.pub m
  (encB (s ++ m), s)

/-- Modelled from the spec: ursula.verify_from(alice, ciphertext, decrypt=True,
signature_is_on_cleartext=True) decrypts, reads the leading signature, checks
it against alice over the remaining cleartext, and returns the verification
flag together with the full cleartext (signature still attached, exactly as
the caller in Contract.from_ursula re-splits it). -/
def verify_from (alice : Character) (ciphertext : Bytes) : Bool × Bytes :=
  let clear := decB ciphertext
  match splitFixed sigLen clear with
  | some (s, msg) => (s == mkSig alice.pub msg, clear)
  | none => (false, clear)

/-- Failure outcomes.  The Python source raises dynamic errors (KeyError,
AttributeError, TypeError, ValueError); the remaining constructors are the
typed taxonomy the spec names, kept so that theorems can state which errors
the code does or does not produce. -/
inductive Err where
  | malformedPayload
  | unauthenticatedOrder
  | unverifiedSender
  | keyError
  | attributeError
  | typeError
  | incompletePolicy (idxs : List Nat)
  | enactmentFailed
  | peerUnreachable
deriving DecidableEq

/-- The kfrag slot of a Contract: either the UNKNOWN_KFRAG sentinel from
npre.constants (not under src/) or an assigned fragment. -/
inductive KFragVal where
  | unknown
  | frag (b : Bytes)
deriving DecidableEq

/-- Modelled from the spec: the byte form of the UNKNOWN_KFRAG sentinel. -/
def unknownKfragBytes : Bytes := List.replicate kfragLen 0

/-- Byte form of a kfrag slot, as bytes(self.kfrag) produces it. -/
def kfragBytes : KFragVal → Bytes
  | .unknown => unknownKfragBytes
  | .frag b => b

/-- The ASCII bytes of the literal "This might be a ChallengePack" appended by
Contract.payload (models.py line 53). -/
def challengeMarker : Bytes :=
  [84, 104, 105, 115, 32, 109, 105, 103, 104, 116, 32, 98, 101, 32, 97, 32,
   67, 104, 97, 108, 108, 101, 110, 103, 101, 80, 97, 99, 107]

/-- Contract (models.py lines 21 to 77): the negotiated state between Alice
and one Ursula for one kfrag.  The __init__ accepts an alices_signature
argument but never assigns it to the instance, so it is not a field here. -/
structure Contract where
  alice : Character
  expiration : Nat
  deposit : Option Nat
  ursula : Option Character
  kfrag : KFragVal
  encrypted_challenge_pack : Option Bytes
deriving DecidableEq

/-- Contract.__init__ (models.py lines 26 to 38), with the Python default
values deposit=None, ursula=None, kfrag=UNKNOWN_KFRAG made explicit at each
call site. -/
def Contract.init (alice : Character) (expiration : Nat) (deposit : Option Nat)
    (ursula : Option Character) (kfrag : KFragVal)
    (encrypted_challenge_pack : Option Bytes) : Contract :=
  ⟨alice, expiration, deposit, ursula, kfrag, encrypted_challenge_pack⟩

/-- Contract.payload (models.py lines 51 to 53): bytes of the kfrag followed
by the ChallengePack marker string. -/
def Contract.payload (c : Contract) : Bytes :=
  kfragBytes c.kfrag ++ challengeMarker

/-- Contract.encrypt_payload_for_ursula (models.py lines 45 to 49):
alice.encrypt_for(self.ursula, self.payload())[0].  When no ursula is bound
the attribute access on None fails, modelled as an AttributeError. -/
def Contract.encrypt_payload_for_ursula (c : Contract) : Except Err Bytes :=
  match c.ursula with
  | none => Except.error Err.attributeError
  | some u => Except.ok (encryptFor c.alice u.pub c.payload).1

/-- Contract.from_ursula (models.py lines 55 to 77).  The group payload is
split into the Alice public key and a msgpack remainder holding the payload
encrypted for Ursula; verify_from computes the verification flag, which the
source then ignores (lines 64 to 66 read: if not verified: pass).  The
cleartext is split into signature and policy payload, the policy payload into
kfrag and encrypted challenge pack.  Line 74 then calls the Contract
constructor without the required expiration argument, so the call raises a
TypeError on every input that parses this far. -/
def Contract.from_ursula (group_payload : Bytes) (_ursula : Character) :
    Except Err Contract :=
  match splitFixed pkLen group_payload with
  | none => Except.error Err.malformedPayload
  | some (alice_pubkey_sig, rest) =>
    match mpLoadBytesWhole rest with
    | none => Except.error Err.malformedPayload
    | some payload_encrypted_for_ursula =>
      let alice := Character.mk alice_pubkey_sig
      let vr := verify_from alice payload_encrypted_for_ursula
      match splitFixed sigLen vr.2 with
      | none => Except.error Err.malformedPayload
      | some (_alices_signature, policy_payload) =>
        match splitFixed kfragLen policy_payload with
        | none => Except.error Err.malformedPayload
        | some (_kfrag, _encrypted_challenge_pack) =>
          Except.error Err.typeError

/-- The verification flag that Contract.from_ursula computes at models.py
line 61 on a given group payload (and then never branches on). -/
def Contract.from_ursula_verified (group_payload : Bytes) : Option Bool :=
  match splitFixed pkLen group_payload with
  | none => none
  | some (alice_pubkey_sig, rest) =>
    match mpLoadBytesWhole rest with
    | none => none
    | some enc => some (verify_from (Character.mk alice_pubkey_sig) enc).1

/-- TreasureMap (models.py lines 301 to 318): the ordered list of Ursula
interface dht keys. -/
structure TreasureMapS where
  ids : List Bytes
deriving DecidableEq

/-- TreasureMap.packed_payload (models.py lines 305 to 306). -/
def TreasureMapS.packed_payload (t : TreasureMapS) : Bytes :=
  mpDumpList t.ids

/-- TreasureMap.add_ursula (models.py lines 308 to 309), taking the interface
dht key that ursula.interface_dht_key() (not under src/) supplies. -/
def TreasureMapS.add_ursula (t : TreasureMapS) (ursulaDhtKey : Bytes) :
    TreasureMapS :=
  ⟨t.ids ++ [ursulaDhtKey]⟩

/-- PolicyGroup (models.py lines 117 to 170): the aggregate of the grant from
Alice to Bob for one uri, carrying the treasure map to publish. -/
structure PolicyGroup where
  uri : Bytes
  alice : Character
  bob : Character
  treasure_map : TreasureMapS

/-- PolicyGroup.hash (models.py lines 131 to 133): keccak_digest of the
message. -/
def PolicyGroup.hash (message : Bytes) : Bytes := keccak_digest message

/-- Modelled from the spec: PolicyGroup defines no hrac method in the source,
yet treasure_map_dht_key and publish_treasure_map both call self.hrac().  The
spec defines the HRAC as hash(ownerPublicKey || recipientPublicKey ||
resourceURI), which is exactly what Policy.hrac_for computes, so the missing
method is modelled by that digest over the fields of the group. -/
def PolicyGroup.hracM (pg : PolicyGroup) : Bytes :=
  PolicyGroup.hash (pg.alice.pub ++ pg.bob.pub ++ pg.uri)

/-- PolicyGroup.treasure_map_dht_key (models.py lines 140 to 148): the hash of
the Alice verifying key bytes followed by the hrac. -/
def PolicyGroup.treasure_map_dht_key (pg : PolicyGroup) : Bytes :=
  PolicyGroup.hash (pg.alice.pub ++ pg.hracM)

/-- The ASCII bytes of the literal "trmap" prefixed to the dht value at
models.py line 167. -/
def trmapTag : Bytes := [116, 114, 109, 97, 112]

/-- PolicyGroup.publish_treasure_map (models.py lines 156 to 170): encrypts
the packed treasure map for Bob, signs the hrac for Ursula, assembles the dht
value signature plus Alice key plus hrac plus msgpack of the encrypted map,
and performs one set on the server at the dht key with the value prefixed by
the trmap tag.  The result is the single (key, value) pair handed to the
store. -/
def PolicyGroup.publish_treasure_map (pg : PolicyGroup) : Bytes × Bytes :=
  let encrypted_treasure_map :=
    (encryptFor pg.alice pg.bob.pub pg.treasure_map.packed_payload).1
  let signature_for_ursula := mkSig pg.alice.pub pg.hracM
  let dht_value :=
    signature_for_ursula ++ pg.alice.pub ++ pg.hracM ++
      mpDumpBytes encrypted_treasure_map
  let dht_key := pg.treasure_map_dht_key
  (dht_key, trmapTag ++ dht_value)

/-- Policy (models.py lines 173 to 298): the owner-side aggregate for one
grant.  The fields challenge_size, challenge_pack and random_id_portion play
no part in any claim and random_id_portion is a fresh random value, so they
are omitted; treasure_map is the plain Python list assigned at models.py line
205 and active_contracts the dict of line 207, modelled as an association
list. -/
structure Policy where
  alice : Character
  bob : Option Character
  kfrags : List Bytes
  pfrag : Option Bytes
  uri : Bytes
  treasure_map : List Bytes
  active_contracts : List (Bytes × Contract)

/-- Policy.from_alice (models.py lines 227 to 236), which runs __init__ with
an empty treasure map and no active contracts. -/
def Policy.from_alice (kfrags : List Bytes) (pfrag : Option Bytes)
    (alice : Character) (bob : Character) (uri : Bytes) : Policy :=
  ⟨alice, some bob, kfrags, pfrag, uri, [], []⟩

/-- Policy.hrac_for (models.py lines 244 to 258): PolicyGroup.hash of the
Alice key bytes, the Bob key bytes and the uri. -/
def Policy.hrac_for (alice bob : Character) (uri : Bytes) : Bytes :=
  PolicyGroup.hash (alice.pub ++ bob.pub ++ uri)

/-- Policy.hrac (models.py lines 238 to 242): hrac_for on the own fields.  A
Policy whose bob is None fails the attribute access bytes(None.seal). -/
def Policy.hracE (p : Policy) : Except Err Bytes :=
  match p.bob with
  | some b => Except.ok (Policy.hrac_for p.alice b p.uri)
  | none => Except.error Err.attributeError

/-- Policy.craft_offer (models.py lines 282 to 283).  The source calls
Contract(self.alice, deposit, expiration) although the constructor signature
is Contract(alice, expiration, deposit, ...), so the deposit argument lands in
the expiration field and the expiration argument in the deposit field. -/
def Policy.craft_offer (p : Policy) (deposit : Nat) (expiration : Nat) :
    Contract :=
  Contract.init p.alice deposit (some expiration) none KFragVal.unknown none

/-- The network collaborator of Policy.enact: enact_policy(ursula, hrac,
payload) returning a response or a network failure. -/
abbrev NetClient := Bytes → Bytes → Bytes → Except Err Bytes

/-- Lookup in the active contracts dict; a missing key raises KeyError in the
source. -/
def lookupContract (m : List (Bytes × Contract)) (k : Bytes) :
    Option Contract :=
  (m.find? (fun kv => kv.1 == k)).map (fun kv => kv.2)

/-- The statement self.treasure_map.add_ursula(policy.ursula) at models.py
line 271: self.treasure_map is the plain list assigned at line 205 and lists
have no add_ursula attribute (and the argument names an undefined variable
policy), so the statement raises an AttributeError whenever reached. -/
def treasureMapAddStep : Except Err Unit := Except.error Err.attributeError

/-- The full payload built for one contract inside the Policy.enact loop
(models.py line 265): the Alice key bytes followed by the msgpack dump of the
payload encrypted for the bound ursula. -/
def fullPayloadFor (p : Policy) (c : Contract) (u : Character) : Bytes :=
  p.alice.pub ++ mpDumpBytes (encryptFor c.alice u.pub c.payload).1

/-- The loop body of Policy.enact (models.py lines 260 to 271), iterating the
kfrags in order: look the contract up in the active contracts dict (KeyError
when absent), build and encrypt the payload for its ursula, send it through
the network client, and then run the treasure map append statement, which
always raises (see treasureMapAddStep). -/
def Policy.enactGo (p : Policy) (net : NetClient) :
    List Bytes → Except Err (List Bytes)
  | [] => Except.ok p.treasure_map
  | kfrag :: rest =>
    match lookupContract p.active_contracts kfrag with
    | none => Except.error Err.keyError
    | some contract =>
      match contract.ursula with
      | none => Except.error Err.attributeError
      | some u =>
        match Policy.hracE p with
        | Except.error e => Except.error e
        | Except.ok hr =>
          match net u.pub hr (fullPayloadFor p contract u) with
          | Except.error e => Except.error e
          | Except.ok _response =>
            match treasureMapAddStep with
            | Except.error e => Except.error e
            | Except.ok _ => Policy.enactGo p net rest

/-- Policy.enact (models.py lines 260 to 271). -/
def Policy.enact (p : Policy) (net : NetClient) : Except Err (List Bytes) :=
  Policy.enactGo p net p.kfrags

/-- The ASCII bytes of the literal "wo:" prefixed to the receipt at models.py
line 343. -/
def woTag : Bytes := [119, 111, 58]

/-- WorkOrder (models.py lines 321 to 362): the recipient-signed request for
re-encryption work.  PFrag values are carried as their byte serialization. -/
structure WorkOrder where
  bob : Character
  kfrag_hrac : Bytes
  pfrags : List Bytes
  receipt_bytes : Bytes
  receipt_signature : Bytes
  ursula_id : Option Bytes
deriving DecidableEq

/-- WorkOrder.__eq__ (models.py lines 335 to 336): equality of the pair of
receipt bytes and receipt signature, nothing else. -/
def WorkOrder.eqPy (a b : WorkOrder) : Bool :=
  (a.receipt_bytes == b.receipt_bytes) &&
    (a.receipt_signature == b.receipt_signature)

/-- WorkOrder.constructed_by_bob (models.py lines 341 to 345): the receipt is
the wo: tag followed by the ursula dht key, signed by Bob. -/
def WorkOrder.constructed_by_bob (kfrag_hrac : Bytes) (pfrags : List Bytes)
    (ursula_dht_key : Bytes) (bob : Character) : WorkOrder :=
  ⟨bob, kfrag_hrac, pfrags, woTag ++ ursula_dht_key,
    mkSig bob.pub (woTag ++ ursula_dht_key), some ursula_dht_key⟩

/-- WorkOrder.from_rest_payload (models.py lines 347 to 357): split the
payload into signature and Bob public key, msgpack-load the remainder into
receipt bytes and packed pfrags, load the pfrag list, verify the signature
over the receipt bytes against the Bob key from the payload, and raise the
ValueError of line 355 (the UnauthenticatedOrder of the spec taxonomy) when
verification fails.  No proxy identity enters the check. -/
def WorkOrder.from_rest_payload (kfrag_hrac : Bytes) (rest_payload : Bytes) :
    Except Err WorkOrder :=
  match splitFixed sigLen rest_payload with
  | none => Except.error Err.malformedPayload
  | some (signature, r1) =>
    match splitFixed pkLen r1 with
    | none => Except.error Err.malformedPayload
    | some (bob_pubkey_sig, r2) =>
      match mpLoadPairWhole r2 with
      | none => Except.error Err.malformedPayload
      | some (receipt_bytes, packed_pfrags) =>
        match mpLoadListWhole packed_pfrags with
        | none => Except.error Err.malformedPayload
        | some pfrags =>
          if sigVerify signature receipt_bytes bob_pubkey_sig then
            Except.ok ⟨Character.mk bob_pubkey_sig, kfrag_hrac, pfrags,
              receipt_bytes, signature, none⟩
          else
            Except.error Err.unauthenticatedOrder

/-- WorkOrder.payload (models.py lines 359 to 362): receipt signature, Bob key
bytes, then the msgpack dump of the pair of receipt bytes and packed pfrag
list. -/
def WorkOrder.payload (w : WorkOrder) : Bytes :=
  w.receipt_signature ++ w.bob.pub ++
    mpDumpPair w.receipt_bytes (mpDumpList w.pfrags)

/-- A concrete Alice identity used by the concrete-input theorems. -/
def aliceC : Character := ⟨List.replicate 32 1⟩

/-- A concrete Bob identity used by the concrete-input theorems. -/
def bobC : Character := ⟨List.replicate 32 2⟩

/-- A concrete Ursula identity used by the concrete-input theorems. -/
def ursulaC : Character := ⟨List.replicate 32 3⟩

/-- A concrete kfrag byte string of the modelled KFrag width. -/
def kfragBytesC : Bytes := List.replicate kfragLen 6

/-- The cleartext body (kfrag then challenge pack bytes) of the concrete
contract offers below. -/
def innerMsgC : Bytes := kfragBytesC ++ [9, 9]

/-- A 64-byte string that is not the signature of Alice over innerMsgC. -/
def badSigC : Bytes := List.replicate sigLen 5

/-- A concrete group payload whose inner signature check fails: the Alice key
followed by the msgpack dump of the encryption of a wrong signature and the
cleartext body. -/
def badGroupPayloadC : Bytes :=
  aliceC.pub ++ mpDumpBytes (encB (badSigC ++ innerMsgC))

/-- A concrete group payload whose inner signature check succeeds. -/
def goodGroupPayloadC : Bytes :=
  aliceC.pub ++ mpDumpBytes (encB (mkSig aliceC.pub innerMsgC ++ innerMsgC))

/-- A network client whose transmissions all succeed. -/
def netOkC : NetClient := fun _ _ _ => Except.ok []

/-- A network client whose transmissions all fail as unreachable. -/
def netFailC : NetClient := fun _ _ _ => Except.error Err.peerUnreachable

/-- A concrete Policy with one kfrag and no active contract for it. -/
def pMissingC : Policy := Policy.from_alice [[1]] none aliceC bobC [7]

/-- A concrete active contract binding ursulaC and a known kfrag. -/
def contractC : Contract :=
  ⟨aliceC, 0, none, some ursulaC, KFragVal.frag (List.replicate kfragLen 4),
    none⟩

/-- A concrete Policy with one kfrag whose contract is active and bound. -/
def pActiveC : Policy :=
  ⟨aliceC, some bobC, [[4]], none, [7], [], [([4], contractC)]⟩

/-- Concrete receipt bytes for a hand-built (forged) work-order payload. -/
def receiptC : Bytes := [9, 8]

/-- The tail of the forged work-order payload after the signature field. -/
def badWoR1C : Bytes := bobC.pub ++ mpDumpPair receiptC (mpDumpList [[1]])

/-- A concrete work-order wire payload whose signature check fails: a wrong
signature, the Bob key, and a well-formed remainder. -/
def badWoPayloadC : Bytes := badSigC ++ badWoR1C

/-- The dht key of the proxy P the concrete work order below is built for. -/
def pkeyPC : Bytes := [1, 2, 3]

/-- A concrete work order validly constructed by Bob for proxy P. -/
def woPC : WorkOrder := WorkOrder.constructed_by_bob [8] [[1], [2]] pkeyPC bobC

/-- A concrete policy group with a one-entry treasure map. -/
def pgC : PolicyGroup := ⟨[1], aliceC, bobC, ⟨[[9]]⟩⟩

/-- Decoding inverts the fuelled length encoding whenever the fuel covers the
encoded number. -/
theorem vDec_vEncF (f : Nat) : ∀ n rest, n ≤ f →
    vDec (vEncF f n ++ rest) = some (n, rest) := by
  induction f with
  | zero =>
    intro n rest hn
    have h0 : n = 0 := Nat.le_zero.mp hn
    subst h0
    simp [vEncF, vDec]
  | succ f ih =>
    intro n rest hn
    by_cases h : n < 128
    · simp [vEncF, h, vDec]
    · have hn0 : 0 < n := by omega
      have hdiv : n / 128 < n := Nat.div_lt_self hn0 (by omega)
      have hle : n / 128 ≤ f := by omega
      have hcond : ¬ (128 + n % 128 < 128) := by omega
      simp [vEncF, h, vDec, hcond, ih (n / 128) rest hle]
      omega

/-- Decoding inverts the length encoding. -/
theorem vDec_vEnc (n : Nat) (rest : Bytes) :
    vDec (vEnc n ++ rest) = some (n, rest) :=
  vDec_vEncF n n rest le_rfl

/-- Loading inverts dumping for a single byte string, preserving the rest of
the input. -/
theorem mpLoadBytes_dump (b rest : Bytes) :
    mpLoadBytes (mpDumpBytes b ++ rest) = some (b, rest) := by
  simp [mpDumpBytes, mpLoadBytes, List.append_assoc, vDec_vEnc,
    List.take_left, List.drop_left, List.length_append, Nat.le_add_right]

/-- Loading a known count of byte strings inverts dumping them in sequence. -/
theorem mpLoadN_dump (l : List Bytes) : ∀ rest,
    mpLoadN l.length ((l.map mpDumpBytes).flatten ++ rest) = some (l, rest) := by
  induction l with
  | nil => intro rest; simp [mpLoadN]
  | cons b bs ih =>
    intro rest
    simp [mpLoadN, List.append_assoc, mpLoadBytes_dump, ih rest]

/-- Loading inverts dumping for a list of byte strings. -/
theorem mpLoadList_dump (l : List Bytes) (rest : Bytes) :
    mpLoadList (mpDumpList l ++ rest) = some (l, rest) := by
  simp [mpDumpList, mpLoadList, List.append_assoc, vDec_vEnc, mpLoadN_dump]

/-- Whole-input loading inverts dumping for a list of byte strings. -/
theorem mpLoadListWhole_dump (l : List Bytes) :
    mpLoadListWhole (mpDumpList l) = some l := by
  unfold mpLoadListWhole
  rw [show mpDumpList l = mpDumpList l ++ [] from (List.append_nil _).symm,
    mpLoadList_dump]

/-- Whole-input loading inverts dumping for a pair of byte strings. -/
theorem mpLoadPairWhole_dump (a b : Bytes) :
    mpLoadPairWhole (mpDumpPair a b) = some (a, b) := by
  simp [mpDumpPair, mpLoadPairWhole, mpLoadListWhole_dump]

/-- Whole-input loading inverts dumping for a single byte string. -/
theorem mpLoadBytesWhole_dump (b : Bytes) :
    mpLoadBytesWhole (mpDumpBytes b) = some b := by
  unfold mpLoadBytesWhole
  rw [show mpDumpBytes b = mpDumpBytes b ++ [] from (List.append_nil _).symm,
    mpLoadBytes_dump]

/-- Splitting a fixed-width field off a payload that begins with a field of
exactly that width returns the field and the rest. -/
theorem splitFixed_of_length (a b : Bytes) (n : Nat) (h : a.length = n) :
    splitFixed n (a ++ b) = some (a, b) := by
  subst h
  simp [splitFixed, List.take_left, List.drop_left, List.length_append,
    Nat.le_add_right]

/-- Padding to a width yields that width. -/
theorem padTo_length (n : Nat) (l : Bytes) : (padTo n l).length = n := by
  simp [padTo, List.length_take, List.length_append, List.length_replicate]

/-- Every produced signature has the fixed signature width. -/
theorem mkSig_length (pub m : Bytes) : (mkSig pub m).length = sigLen :=
  padTo_length _ _

/-- Parsing the wire payload of a work order built by constructed_by_bob
recovers the receipt bytes, receipt signature, Bob key and pfrag bytes. -/
theorem parse_of_constructed (bob : Character) (hrac : Bytes)
    (pfrags : List Bytes) (ukey : Bytes) (hpk : bob.pub.length = pkLen) :
    WorkOrder.from_rest_payload hrac
        (WorkOrder.payload (WorkOrder.constructed_by_bob hrac pfrags ukey bob)) =
      Except.ok ⟨⟨bob.pub⟩, hrac, pfrags, woTag ++ ukey,
        mkSig bob.pub (woTag ++ ukey), none⟩ := by
  have h1 := splitFixed_of_length (mkSig bob.pub (woTag ++ ukey))
    (bob.pub ++ mpDumpPair (woTag ++ ukey) (mpDumpList pfrags)) sigLen
    (mkSig_length _ _)
  have h2 := splitFixed_of_length bob.pub
    (mpDumpPair (woTag ++ ukey) (mpDumpList pfrags)) pkLen hpk
  simp [WorkOrder.from_rest_payload, WorkOrder.payload,
    WorkOrder.constructed_by_bob, List.append_assoc, h1, h2,
    mpLoadPairWhole_dump, mpLoadListWhole_dump, sigVerify]

/-- C1.  The claim says Contract.from_ursula fails with UnverifiedSender on
every group payload whose inner signature check fails.  The code computes the
verification flag and ignores it (models.py lines 64 to 66), then raises a
TypeError on every parseable payload because line 74 omits the required
expiration constructor argument: on the concrete payload badGroupPayloadC the
flag is false yet the error is the unrelated TypeError, and on the validly
signed goodGroupPayloadC the very same TypeError occurs, so the outcome never
depends on the signature check. -/
theorem from_ursula_ignores_failed_verification :
    Contract.from_ursula_verified badGroupPayloadC = some false ∧
    Contract.from_ursula badGroupPayloadC ursulaC = Except.error Err.typeError ∧
    Contract.from_ursula_verified goodGroupPayloadC = some true ∧
    Contract.from_ursula goodGroupPayloadC ursulaC = Except.error Err.typeError :=
  ⟨rfl, rfl, rfl, rfl⟩

/-- C2 counterexample.  On the concrete policy pMissingC, whose only kfrag has
no active Contract, enact fails with the dict lookup KeyError, not with
IncompletePolicy listing the unresolved index; and on pActiveC with a failing
transmission the raw network error propagates instead of EnactmentFailed. -/
theorem enact_error_is_not_typed :
    Policy.enact pMissingC netOkC = Except.error Err.keyError ∧
    Err.keyError ≠ Err.incompletePolicy [0] ∧
    Policy.enact pActiveC netFailC = Except.error Err.peerUnreachable ∧
    Err.peerUnreachable ≠ Err.enactmentFailed :=
  ⟨rfl, by decide, rfl, by decide⟩

/-- C2 as amended.  On any Policy whose first kfrag is k: when k has no active
Contract, enact fails with the KeyError of the dict lookup (no index list);
when the transmission for k fails, that raw error aborts enact unchanged (no
EnactmentFailed wrapper); and on any Policy with at least one kfrag enact
never returns successfully at all, so no treasure map entries are ever
published. -/
theorem enact_fails_with_raw_errors (p : Policy) (net : NetClient) (k : Bytes)
    (rest : List Bytes) (hk : p.kfrags = k :: rest) :
    (lookupContract p.active_contracts k = none →
      Policy.enact p net = Except.error Err.keyError) ∧
    (∀ c u hr r, lookupContract p.active_contracts k = some c →
      c.ursula = some u → Policy.hracE p = Except.ok hr →
      net u.pub hr (fullPayloadFor p c u) = Except.error r →
      Policy.enact p net = Except.error r) ∧
    (∀ l, Policy.enact p net ≠ Except.ok l) := by
  refine ⟨?_, ?_, ?_⟩
  · intro h
    simp [Policy.enact, hk, Policy.enactGo, h]
  · intro c u hr r h1 h2 h3 h4
    simp [Policy.enact, hk, Policy.enactGo, h1, h2, h3, h4]
  · intro l h
    simp only [Policy.enact, hk, Policy.enactGo] at h
    rcases hc : lookupContract p.active_contracts k with _ | c <;>
      simp only [hc] at h
    · exact Except.noConfusion h
    · rcases hu : c.ursula with _ | u <;> simp only [hu] at h
      · exact Except.noConfusion h
      · rcases hh : Policy.hracE p with e | hr <;> simp only [hh] at h
        · exact Except.noConfusion h
        · rcases hn : net u.pub hr (fullPayloadFor p c u) with e | resp <;>
            simp only [hn] at h
          · exact Except.noConfusion h
          · simp [treasureMapAddStep] at h

/-- C2 witness: the amended behavior at the concrete policy pMissingC. -/
theorem enact_fails_with_raw_errors_witness :
    Policy.enact pMissingC netOkC = Except.error Err.keyError :=
  (enact_fails_with_raw_errors pMissingC netOkC [1] [] rfl).1 rfl

/-- C3.  The claim says enact on a fully active Policy with successful
transmissions yields a Treasure Map with one entry per kfrag.  On the concrete
pActiveC (one kfrag, active Contract bound to ursulaC, all transmissions
succeeding) the code instead fails with an AttributeError: at models.py line
271 self.treasure_map is the plain list assigned at line 205, which has no
add_ursula method, and the argument names the undefined variable policy. -/
theorem enact_success_path_crashes :
    Policy.enact pActiveC netOkC = Except.error Err.attributeError :=
  rfl

/-- C4.  Parsing a Work Order from its wire payload never yields an order
whose signature fails to verify over the receipt bytes against the recipient
key carried in the payload; and whenever the fields parse but the signature
check fails, the parse fails with the UnauthenticatedOrder error (the
ValueError of models.py line 355) and returns no WorkOrder. -/
theorem parse_rejects_unverified (kfrag_hrac rest_payload : Bytes) :
    (∀ w, WorkOrder.from_rest_payload kfrag_hrac rest_payload = Except.ok w →
      sigVerify w.receipt_signature w.receipt_bytes w.bob.pub = true) ∧
    (∀ signature r1 bobPub r2 rb pk pf,
      splitFixed sigLen rest_payload = some (signature, r1) →
      splitFixed pkLen r1 = some (bobPub, r2) →
      mpLoadPairWhole r2 = some (rb, pk) →
      mpLoadListWhole pk = some pf →
      sigVerify signature rb bobPub = false →
      WorkOrder.from_rest_payload kfrag_hrac rest_payload =
        Except.error Err.unauthenticatedOrder) := by
  constructor
  · intro w h
    unfold WorkOrder.from_rest_payload at h
    rcases h1 : splitFixed sigLen rest_payload with _ | ⟨s, r1⟩ <;>
      simp only [h1] at h
    · exact Except.noConfusion h
    · rcases h2 : splitFixed pkLen r1 with _ | ⟨pub, r2⟩ <;>
        simp only [h2] at h
      · exact Except.noConfusion h
      · rcases h3 : mpLoadPairWhole r2 with _ | ⟨rb, pk⟩ <;>
          simp only [h3] at h
        · exact Except.noConfusion h
        · rcases h4 : mpLoadListWhole pk with _ | pf <;> simp only [h4] at h
          · exact Except.noConfusion h
          · by_cases hv : sigVerify s rb pub = true
            · simp only [hv, if_true] at h
              cases h
              exact hv
            · simp only [Bool.not_eq_true] at hv
              simp [hv] at h
  · intro signature r1 bobPub r2 rb pk pf h1 h2 h3 h4 h5
    simp [WorkOrder.from_rest_payload, h1, h2, h3, h4, h5]

/-- C4 witness: the concrete forged payload badWoPayloadC, whose fields parse
but whose signature check fails, is rejected as UnauthenticatedOrder. -/
theorem parse_rejects_unverified_witness :
    WorkOrder.from_rest_payload [0] badWoPayloadC =
      Except.error Err.unauthenticatedOrder :=
  (parse_rejects_unverified [0] badWoPayloadC).2 badSigC badWoR1C bobC.pub
    (mpDumpPair receiptC (mpDumpList [[1]])) receiptC (mpDumpList [[1]]) [[1]]
    rfl rfl rfl rfl rfl

/-- C5 counterexample.  The claim says a Work Order built by Bob for proxy P
is rejected with UnauthenticatedOrder when parsed by a different proxy Q.  The
parse function takes no proxy identity at all, so every proxy runs the very
same computation; on the concrete order woPC built for proxy key pkeyPC it
returns a WorkOrder successfully rather than rejecting. -/
theorem work_order_cross_proxy_accepted :
    (WorkOrder.from_rest_payload [8] woPC.payload).isOk = true :=
  rfl

/-- C5 as amended.  Proxy-side parsing verifies only the recipient signature
over the receipt bytes; it never re-derives or compares the proxy discovery
key, so a well-formed order validly signed by Bob parses successfully no
matter which proxy handles it. -/
theorem work_order_parse_ignores_proxy (bob : Character) (hrac : Bytes)
    (pfrags : List Bytes) (pkey : Bytes) (hpk : bob.pub.length = pkLen) :
    (WorkOrder.from_rest_payload hrac
      (WorkOrder.payload
        (WorkOrder.constructed_by_bob hrac pfrags pkey bob))).isOk = true := by
  rw [parse_of_constructed bob hrac pfrags pkey hpk]
  rfl

/-- C5 witness: the amended behavior at the concrete order woPC. -/
theorem work_order_parse_ignores_proxy_witness :
    (WorkOrder.from_rest_payload [8]
      (WorkOrder.payload
        (WorkOrder.constructed_by_bob [8] [[1], [2]] pkeyPC bobC))).isOk = true :=
  work_order_parse_ignores_proxy bobC [8] [[1], [2]] pkeyPC rfl

/-- C6 counterexample.  The claim says publication stores exactly the wire
value signature plus owner key plus HRAC plus serialized encrypted map; on the
concrete group pgC the stored value differs from that wire value, because the
code prefixes the ASCII tag trmap (models.py line 167). -/
theorem publish_value_carries_tag :
    (PolicyGroup.publish_treasure_map pgC).2 ≠
      mkSig pgC.alice.pub pgC.hracM ++ pgC.alice.pub ++ pgC.hracM ++
        mpDumpBytes
          (encryptFor pgC.alice pgC.bob.pub
            pgC.treasure_map.packed_payload).1 := by
  decide

/-- C6 as amended.  Treasure map publication performs a single upsert whose
key is hash(ownerPublicKey || HRAC) and whose stored value is the 5-byte
ASCII tag trmap followed by the wire value ownerSignatureOverHRAC +
ownerPublicKey + HRAC + serialized(encryptedMap); the embedded signature
verifies over the HRAC against the owner key. -/
theorem publish_treasure_map_layout (pg : PolicyGroup) :
    PolicyGroup.publish_treasure_map pg =
      (PolicyGroup.hash (pg.alice.pub ++ pg.hracM),
        trmapTag ++ (mkSig pg.alice.pub pg.hracM ++ pg.alice.pub ++ pg.hracM ++
          mpDumpBytes
            (encryptFor pg.alice pg.bob.pub
              pg.treasure_map.packed_payload).1)) ∧
    sigVerify (mkSig pg.alice.pub pg.hracM) pg.hracM pg.alice.pub = true := by
  constructor
  · simp [PolicyGroup.publish_treasure_map, PolicyGroup.treasure_map_dht_key,
      List.append_assoc]
  · simp [sigVerify]

/-- C7.  The HRAC is keccak of ownerPublicKey || recipientPublicKey ||
resourceURI and is a deterministic function of exactly those three byte
strings: any two actor pairs with the same key bytes and the same uri give
the same digest. -/
theorem hrac_binds_exactly_three_inputs (a a2 b b2 : Character) (u u2 : Bytes)
    (ha : a.pub = a2.pub) (hb : b.pub = b2.pub) (hu : u = u2) :
    Policy.hrac_for a b u = Policy.hrac_for a2 b2 u2 ∧
    Policy.hrac_for a b u = keccak_digest (a.pub ++ b.pub ++ u) := by
  constructor
  · simp [Policy.hrac_for, PolicyGroup.hash, ha, hb, hu]
  · rfl

/-- C7 witness: the determinism at concrete keys, with the second actor pair
rebuilt from the key bytes alone. -/
theorem hrac_binds_exactly_three_inputs_witness :
    Policy.hrac_for aliceC bobC [7] =
      Policy.hrac_for ⟨aliceC.pub⟩ ⟨bobC.pub⟩ [7] ∧
    Policy.hrac_for aliceC bobC [7] =
      keccak_digest (aliceC.pub ++ bobC.pub ++ [7]) :=
  hrac_binds_exactly_three_inputs aliceC ⟨aliceC.pub⟩ bobC ⟨bobC.pub⟩ [7] [7]
    rfl rfl rfl

/-- C8.  Serialization of a Work Order built by Bob is inverted by parsing:
the parsed order carries the same receipt bytes, the same receipt signature,
the same recipient public key and the same pfrag bytes. -/
theorem work_order_wire_roundtrip (bob : Character) (hrac : Bytes)
    (pfrags : List Bytes) (ukey : Bytes) (hpk : bob.pub.length = pkLen) :
    WorkOrder.from_rest_payload hrac
        (WorkOrder.payload (WorkOrder.constructed_by_bob hrac pfrags ukey bob)) =
      Except.ok ⟨⟨bob.pub⟩, hrac, pfrags,
        (WorkOrder.constructed_by_bob hrac pfrags ukey bob).receipt_bytes,
        (WorkOrder.constructed_by_bob hrac pfrags ukey bob).receipt_signature,
        none⟩ :=
  parse_of_constructed bob hrac pfrags ukey hpk

/-- C8 witness: the roundtrip at the concrete order woPC. -/
theorem work_order_wire_roundtrip_witness :
    WorkOrder.from_rest_payload [8]
        (WorkOrder.payload (WorkOrder.constructed_by_bob [8] [[1], [2]] pkeyPC bobC)) =
      Except.ok ⟨⟨bobC.pub⟩, [8], [[1], [2]],
        (WorkOrder.constructed_by_bob [8] [[1], [2]] pkeyPC bobC).receipt_bytes,
        (WorkOrder.constructed_by_bob [8] [[1], [2]] pkeyPC bobC).receipt_signature,
        none⟩ :=
  work_order_wire_roundtrip bobC [8] [[1], [2]] pkeyPC rfl

/-- C9.  The claim says craft_offer returns a Contract whose expiration is the
given expiration and whose deposit is the given deposit.  The call site
Contract(self.alice, deposit, expiration) at models.py line 283 passes the
arguments positionally into the signature Contract(alice, expiration,
deposit), so with deposit 1 and expiration 2 the new Contract records
expiration 1 and deposit 2; the proposed-state parts (no ursula bound, kfrag
unknown) do hold. -/
theorem craft_offer_swaps_deposit_and_expiration :
    (Policy.craft_offer pMissingC 1 2).expiration = 1 ∧
    (Policy.craft_offer pMissingC 1 2).deposit = some 2 ∧
    (Policy.craft_offer pMissingC 1 2).ursula = none ∧
    (Policy.craft_offer pMissingC 1 2).kfrag = KFragVal.unknown :=
  ⟨rfl, rfl, rfl, rfl⟩

/-- C10.  WorkOrder equality is decided exactly by the pair of receipt bytes
and receipt signature: two orders are equal under the source equality test
precisely when those two fields agree, whatever their pfrags, hrac, recipient
or ursula id. -/
theorem work_order_eq_is_receipt_pair_only (w1 w2 : WorkOrder) :
    WorkOrder.eqPy w1 w2 = true ↔
      (w1.receipt_bytes = w2.receipt_bytes ∧
        w1.receipt_signature = w2.receipt_signature) := by
  simp [WorkOrder.eqPy]
